import Mathlib

/-!
# Verification of the e-commerce feature-computation and segmentation pipeline

Shallow embedding of the feature-engineering SQL updates
(`analytics/update_existing_tables.py`, `analytics/feature_engineering.py`),
the precomputed-feature snapshot job (`analytics/precomputed_features.py`)
and the K-Means segmentation scripts (`machine_learning/segmentation.py`,
`machine_learning/precomputed_segmentation.py`).

Tables are lists of records; SQL joins are list products preserving row
multiplicity; monetary values are rationals; purchase timestamps are modelled
at day resolution (the SQL extracts whole days from timestamp differences).
-/

set_option autoImplicit false
set_option maxRecDepth 100000

namespace Ecommerce

/-! ## Data model: the relational tables the scripts read and write -/

/-- A row of the `customers` table, including the nullable feature columns the
`ALTER TABLE ... ADD COLUMN IF NOT EXISTS` statements add. -/
structure Customer where
  customer_id : Nat
  customer_unique_id : Nat
  clv : Option ℚ
  total_orders : Option Nat
  avg_order_value : Option ℚ
  avg_days_between_orders : Option ℚ
  avg_shipping_cost : Option ℚ
  estimated_return_rate : Option ℚ
  deriving DecidableEq, Repr

/-- A row of the `orders` table. `order_purchase_timestamp` is in days. -/
structure Order where
  order_id : Nat
  customer_id : Nat
  order_status : String
  order_purchase_timestamp : ℤ
  total_order_value : Option ℚ
  deriving DecidableEq, Repr

/-- A row of the `order_items` table. `order_item_id` is the 1-based line
number of the item within its order. -/
structure OrderItem where
  order_id : Nat
  order_item_id : Nat
  product_id : Nat
  price : ℚ
  freight_value : ℚ
  deriving DecidableEq, Repr

/-- A row of the `products` table. -/
structure Product where
  product_id : Nat
  product_category_name : String
  deriving DecidableEq, Repr

/-- The payload of one `precomputed_features` row: the `jsonb_agg` result of
the corresponding aggregation query. -/
inductive FeatureValue where
  | customerProductPurchases : List (Nat × Nat × Nat) → FeatureValue
  | topProductPopularity : List (Nat × Nat) → FeatureValue
  | customerTopCategories : List (Nat × String × Nat) → FeatureValue
  deriving DecidableEq, Repr

/-- A row of the `precomputed_features` table. -/
structure PrecomputedFeatureRow where
  feature_name : String
  feature_value : FeatureValue
  computed_at : ℤ
  deriving DecidableEq, Repr

/-- The database state the analytics scripts read and update. -/
structure DB where
  customers : List Customer
  orders : List Order
  order_items : List OrderItem
  products : List Product
  precomputed_features : List PrecomputedFeatureRow
  deriving DecidableEq, Repr

/-! ## Joins used by the SQL subqueries -/

/-- Rows of `orders o JOIN order_items oi ON o.order_id = oi.order_id
JOIN customers c ON o.customer_id = c.customer_id
WHERE o.order_status = 'delivered'`, one row per matching triple. -/
def deliveredCOI (db : DB) : List (Customer × Order × OrderItem) :=
  (db.orders.filter (fun o => o.order_status = "delivered")).flatMap fun o =>
    (db.order_items.filter (fun oi => oi.order_id = o.order_id)).flatMap fun oi =>
      (db.customers.filter (fun c => c.customer_id = o.customer_id)).map fun c =>
        (c, o, oi)

/-- The delivered customer/order/order-item join rows of one
`customer_unique_id` group. -/
def deliveredItemRows (db : DB) (u : Nat) : List (Customer × Order × OrderItem) :=
  (deliveredCOI db).filter (fun t => t.1.customer_unique_id = u)

/-- Rows of `customers c JOIN orders o ON c.customer_id = o.customer_id`,
one row per matching pair. -/
def customerOrderRows (db : DB) : List (Customer × Order) :=
  db.customers.flatMap fun c =>
    (db.orders.filter (fun o => o.customer_id = c.customer_id)).map fun o => (c, o)

/-- The customer/order join rows (all statuses) of one `customer_unique_id`
group. -/
def orderRows (db : DB) (u : Nat) : List (Customer × Order) :=
  (customerOrderRows db).filter (fun p => p.1.customer_unique_id = u)

/-- The delivered customer/order join rows of one `customer_unique_id` group. -/
def deliveredOrderRows (db : DB) (u : Nat) : List (Customer × Order) :=
  (customerOrderRows db).filter
    (fun p => p.1.customer_unique_id = u ∧ p.2.order_status = "delivered")

/-! ## `update_clv` (update_existing_tables.py) -/

/-- `SUM(oi.price + oi.freight_value)` over the delivered join rows of a
`customer_unique_id` group. -/
def clvValue (db : DB) (u : Nat) : ℚ :=
  ((deliveredItemRows db u).map (fun t => t.2.2.price + t.2.2.freight_value)).sum

/-- Embedding of the `update_clv` statement: every customer whose unique id
has at least one delivered order-item join row gets `clv` set to the group
sum; other customers are untouched (no subquery row matches them). -/
def update_clv (db : DB) : DB :=
  { db with customers := db.customers.map fun c =>
      if deliveredItemRows db c.customer_unique_id = [] then c
      else { c with clv := some (clvValue db c.customer_unique_id) } }

/-! ## `update_total_order_value` (update_existing_tables.py; the
`Total Oder Value` query of feature_engineering.py is the same statement) -/

/-- The `order_items` rows of one `order_id` group. -/
def itemsOfOrder (db : DB) (oid : Nat) : List OrderItem :=
  db.order_items.filter (fun oi => oi.order_id = oid)

/-- `SUM(oi.price * oi.order_item_id) + SUM(oi.freight_value * oi.order_item_id)`
over the items of one order: each item's price and freight are weighted by its
1-based line number `order_item_id`. -/
def totalOrderValue (db : DB) (oid : Nat) : ℚ :=
  ((itemsOfOrder db oid).map (fun oi => oi.price * (oi.order_item_id : ℚ))).sum
    + ((itemsOfOrder db oid).map (fun oi => oi.freight_value * (oi.order_item_id : ℚ))).sum

/-- Embedding of the `update_total_order_value` statement: every order with at
least one item gets `total_order_value` set to the weighted group sum. -/
def update_total_order_value (db : DB) : DB :=
  { db with orders := db.orders.map fun o =>
      if itemsOfOrder db o.order_id = [] then o
      else { o with total_order_value := some (totalOrderValue db o.order_id) } }

/-! ## `update_avg_days_between_orders` (both variants)

The SQL takes, per `customer_unique_id` partition ordered by purchase
timestamp, `LEAD(order_purchase_timestamp) - order_purchase_timestamp` per
row (NULL on the last row), and averages the non-NULL gaps.  The non-NULL
gaps are exactly the consecutive differences of the sorted timestamp
multiset, so we sort the group's timestamps and take adjacent differences. -/

/-- Insert into a sorted list of timestamps. -/
def insertSorted (x : ℤ) : List ℤ → List ℤ
  | [] => [x]
  | y :: ys => if x ≤ y then x :: y :: ys else y :: insertSorted x ys

/-- Sort timestamps ascending (the window's `ORDER BY o.order_purchase_timestamp`). -/
def sortTimes : List ℤ → List ℤ
  | [] => []
  | x :: xs => insertSorted x (sortTimes xs)

/-- Adjacent differences of a (sorted) timestamp list: the non-NULL `LEAD`
gaps of the window. -/
def gapsOf : List ℤ → List ℤ
  | [] => []
  | [_] => []
  | a :: b :: rest => (b - a) :: gapsOf (b :: rest)

/-- `COALESCE(AVG(order_gap), 0)` over the delivered orders of one
`customer_unique_id` group: the update_existing_tables.py variant, whose
single-order sentinel is 0. -/
def avgDaysValue (db : DB) (u : Nat) : ℚ :=
  let gs := gapsOf (sortTimes ((deliveredOrderRows db u).map
    (fun p => p.2.order_purchase_timestamp)))
  if gs = [] then 0 else ((gs.map (fun g => (g : ℚ))).sum) / (gs.length : ℚ)

/-- Embedding of the `update_avg_days_between_orders` statement of
update_existing_tables.py: delivered orders only, sentinel `COALESCE(..., 0)`. -/
def update_avg_days_between_orders (db : DB) : DB :=
  { db with customers := db.customers.map fun c =>
      if deliveredOrderRows db c.customer_unique_id = [] then c
      else { c with
        avg_days_between_orders := some (avgDaysValue db c.customer_unique_id) } }

/-- `COALESCE(AVG(order_gap), 9999)` over ALL orders (no status filter) of one
`customer_unique_id` group: the `Average Days Between Orders` UPDATE of
feature_engineering.py, whose single-order sentinel is 9999. -/
def feAvgDaysValue (db : DB) (u : Nat) : ℚ :=
  let gs := gapsOf (sortTimes ((orderRows db u).map
    (fun p => p.2.order_purchase_timestamp)))
  if gs = [] then 9999 else ((gs.map (fun g => (g : ℚ))).sum) / (gs.length : ℚ)

/-- Embedding of the `Average Days Between Orders` UPDATE of
feature_engineering.py: all order statuses, sentinel 9999. -/
def fe_update_avg_days_between_orders (db : DB) : DB :=
  { db with customers := db.customers.map fun c =>
      if orderRows db c.customer_unique_id = [] then c
      else { c with
        avg_days_between_orders := some (feAvgDaysValue db c.customer_unique_id) } }

/-! ## `update_avg_order_value` (update_existing_tables.py) -/

/-- `COALESCE(AVG(oi.price + oi.freight_value), 0)` over the delivered
order-item join rows of one `customer_unique_id` group: a per-item mean. -/
def aovValue (db : DB) (u : Nat) : ℚ :=
  let xs := (deliveredItemRows db u).map (fun t => t.2.2.price + t.2.2.freight_value)
  if xs = [] then 0 else xs.sum / (xs.length : ℚ)

/-- Embedding of the `update_avg_order_value` statement: customers with at
least one delivered order-item join row get the per-item mean; others are
untouched. -/
def update_avg_order_value (db : DB) : DB :=
  { db with customers := db.customers.map fun c =>
      if deliveredItemRows db c.customer_unique_id = [] then c
      else { c with avg_order_value := some (aovValue db c.customer_unique_id) } }

/-! ## `update_estimated_return_rate` (update_existing_tables.py; the
`Estimated Return Rate` query of feature_engineering.py computes the same
expression with `COUNT(*)` as the denominator) -/

/-- `COUNT(CASE WHEN o.order_status = 'canceled' THEN 1 END) * 100.0
/ NULLIF(COUNT(o.order_id), 0)` over all orders of one `customer_unique_id`
group.  The group exists only when it has at least one row, so the `NULLIF`
guard never yields NULL there. -/
def returnRateValue (db : DB) (u : Nat) : ℚ :=
  let rows := orderRows db u
  ((rows.filter (fun p => p.2.order_status = "canceled")).length : ℚ) * 100
    / (rows.length : ℚ)

/-- Embedding of the `update_estimated_return_rate` statement: customers with
at least one order (of any status) get the cancelled percentage; others are
untouched. -/
def update_estimated_return_rate (db : DB) : DB :=
  { db with customers := db.customers.map fun c =>
      if orderRows db c.customer_unique_id = [] then c
      else { c with
        estimated_return_rate := some (returnRateValue db c.customer_unique_id) } }

/-! ## `update_tables` (update_existing_tables.py)

The driver iterates over the named update statements in dictionary order and,
for each, runs `conn.execute(text(query))` followed by `conn.commit()`.  A
statement that raises aborts the loop (the exception propagates out of
`update_tables`); statements committed before it keep their effect, and no
statement is retried.  Each statement is a single SQL UPDATE, so its effect is
all-or-nothing; we model a statement as a function that either returns the
fully updated database or an error, leaving the database as last committed. -/

/-- Embedding of `update_tables`: run the named statements in order,
committing after each success; stop at the first failure, reporting the
failing statement's name and error. -/
def update_tables (db : DB) :
    List (String × (DB → Except String DB)) → DB × Option String
  | [] => (db, none)
  | (name, stmt) :: rest =>
    match stmt db with
    | Except.ok db' => update_tables db' rest
    | Except.error e => (db, some (name ++ ": " ++ e))

/-! ## `compute_precomputed_features` (precomputed_features.py) -/

/-- Count the occurrences of each distinct key of a list, in first-occurrence
order (the `GROUP BY` of the aggregation subqueries). -/
def groupCounts {α : Type} [DecidableEq α] (l : List α) : List (α × Nat) :=
  l.dedup.map (fun a => (a, l.count a))

/-- The `customer_product_purchases` aggregate: delivered purchases counted
per (customer_unique_id, product_id). -/
def customerProductPurchasesValue (db : DB) : List (Nat × Nat × Nat) :=
  (groupCounts ((deliveredCOI db).map
    (fun t => (t.1.customer_unique_id, t.2.2.product_id)))).map
      (fun p => (p.1.1, p.1.2, p.2))

/-- The `top_product_popularity` aggregate: delivered sales counted per
product_id (the SQL's `ORDER BY total_sales DESC` affects only the payload's
row order, which we do not model). -/
def topProductPopularityValue (db : DB) : List (Nat × Nat) :=
  groupCounts ((deliveredCOI db).map (fun t => t.2.2.product_id))

/-- The `customer_top_categories` aggregate: delivered purchases joined with
`products`, counted per (customer_unique_id, product_category_name). -/
def customerTopCategoriesValue (db : DB) : List (Nat × String × Nat) :=
  (groupCounts (((deliveredCOI db).flatMap (fun t =>
    (db.products.filter (fun p => p.product_id = t.2.2.product_id)).map
      (fun p => (t, p)))).map
        (fun tp => (tp.1.1.customer_unique_id, tp.2.product_category_name)))).map
      (fun p => (p.1.1, p.1.2, p.2))

/-- The `precomputed_features` row inserted by the first snapshot query. -/
def cppRow (db : DB) (now : ℤ) : PrecomputedFeatureRow :=
  ⟨"customer_product_purchases",
    FeatureValue.customerProductPurchases (customerProductPurchasesValue db), now⟩

/-- The `precomputed_features` row inserted by the second snapshot query. -/
def tppRow (db : DB) (now : ℤ) : PrecomputedFeatureRow :=
  ⟨"top_product_popularity",
    FeatureValue.topProductPopularity (topProductPopularityValue db), now⟩

/-- The `precomputed_features` row inserted by the third snapshot query. -/
def ctcRow (db : DB) (now : ℤ) : PrecomputedFeatureRow :=
  ⟨"customer_top_categories",
    FeatureValue.customerTopCategories (customerTopCategoriesValue db), now⟩

/-- Embedding of `compute_precomputed_features`: the three INSERT statements
run in order, each appending one row to `precomputed_features`.  The inserts
read only the source tables, which they do not modify, so all three aggregate
over the same data; `NOW()` is the clock parameter `now` (its per-statement
drift is irrelevant to the claims). -/
def compute_precomputed_features (db : DB) (now : ℤ) : DB :=
  { db with precomputed_features :=
      db.precomputed_features ++ [cppRow db now, tppRow db now, ctcRow db now] }

/-! ## Segmentation (segmentation.py / precomputed_segmentation.py)

A row of the segmentation dataset: the six feature columns are nullable (a
missing CSV value is NaN, modelled as `none`), plus the `segment` column the
scripts write.

The pipeline is `StandardScaler().fit_transform` followed by
`KMeans(n_clusters, random_state=42).fit_predict`.  Scaling divides each
centred column by its standard deviation, which is irrational in general, so
we keep the centred (mean-subtracted) coordinates and carry the per-column
inverse variances as weights: squared distances between scaled points equal
the weighted squared distances between centred points, which stay rational.
`StandardScaler` leaves a zero-variance column unscaled (it divides by 1),
which the weight 1 reproduces.

`KMeans.fit_predict` is third-party library code; it is modelled as: reject
when `n_clusters < 1` or the sample count is below `n_clusters` (sklearn's
parameter and `n_samples >= n_clusters` validation), otherwise run Lloyd
iterations from initial centroids derived deterministically from
`random_state`.  sklearn runs up to `max_iter=300` Lloyd steps from
`n_init` seeded k-means++ starts; the fixed seed makes the whole computation
a deterministic function of its inputs, which is the only property of the
numeric core the claims below depend on, so the iteration schedule is
abstracted to a fixed-fuel deterministic iteration. -/

/-- A row of the segmentation dataset (CSV). -/
structure SegRow where
  customer_unique_id : Nat
  clv : Option ℚ
  total_orders : Option ℚ
  avg_order_value : Option ℚ
  avg_days_between_orders : Option ℚ
  avg_shipping_cost : Option ℚ
  estimated_return_rate : Option ℚ
  segment : Option Nat
  deriving DecidableEq, Repr

/-- The row's vector over the six feature columns
`["clv", "total_orders", "avg_order_value", "avg_days_between_orders",
"avg_shipping_cost", "estimated_return_rate"]`, if none is missing. -/
def featureVec (r : SegRow) : Option (List ℚ) :=
  match r.clv, r.total_orders, r.avg_order_value, r.avg_days_between_orders,
      r.avg_shipping_cost, r.estimated_return_rate with
  | some a, some b, some c, some d, some e, some f => some [a, b, c, d, e, f]
  | _, _, _, _, _, _ => none

/-- Whether the row survives the missing-value filter (`dropna`). -/
def isComplete (r : SegRow) : Bool := (featureVec r).isSome

/-- Componentwise vector sum. -/
def vecAdd (a b : List ℚ) : List ℚ := List.zipWith (· + ·) a b

/-- Componentwise vector difference. -/
def vecSub (a b : List ℚ) : List ℚ := List.zipWith (· - ·) a b

/-- Scalar multiple of a vector. -/
def vecScale (c : ℚ) (v : List ℚ) : List ℚ := v.map (fun x => c * x)

/-- Sum of a list of 6-dimensional vectors. -/
def sumVecs (X : List (List ℚ)) : List ℚ :=
  X.foldr vecAdd (List.replicate 6 0)

/-- Column means of the feature matrix (`StandardScaler`'s centring). -/
def colMeans (X : List (List ℚ)) : List ℚ :=
  vecScale ((X.length : ℚ))⁻¹ (sumVecs X)

/-- Column variances of the feature matrix (population variance, sklearn's
`ddof = 0`). -/
def colVars (X : List (List ℚ)) : List ℚ :=
  vecScale ((X.length : ℚ))⁻¹
    (sumVecs (X.map (fun x => (vecSub x (colMeans X)).map (fun d => d * d))))

/-- Per-column weights: the inverse variances, with weight 1 for a
zero-variance column (`StandardScaler` divides such a column by 1). -/
def scaleWeights (X : List (List ℚ)) : List ℚ :=
  (colVars X).map (fun v => if v = 0 then 1 else v⁻¹)

/-- Weighted squared Euclidean distance: the squared distance between the
scaled images of two centred points. -/
def distSq (w a b : List ℚ) : ℚ :=
  (List.zipWith (fun wi di => wi * (di * di)) w (vecSub a b)).sum

/-- Index of the minimum of a distance list, ties to the lowest index. -/
def argminAux (i bi : Nat) (bd : ℚ) : List ℚ → Nat
  | [] => bi
  | d :: ds => if d < bd then argminAux (i + 1) i d ds else argminAux (i + 1) bi bd ds

/-- Index of the nearest centroid to a point. -/
def nearestIdx (w : List ℚ) (cs : List (List ℚ)) (z : List ℚ) : Nat :=
  match cs.map (fun c => distSq w c z) with
  | [] => 0
  | d :: ds => argminAux 1 0 d ds

/-- Lloyd assignment step: each point's nearest-centroid index. -/
def assignStep (w : List ℚ) (cs : List (List ℚ)) (Z : List (List ℚ)) : List Nat :=
  Z.map (nearestIdx w cs)

/-- Lloyd update step: each cluster's centroid becomes the mean of its
assigned points; a cluster with no points keeps its centroid. -/
def recomputeStep (k : Nat) (Z : List (List ℚ)) (labels : List Nat)
    (cs : List (List ℚ)) : List (List ℚ) :=
  (List.range k).map fun j =>
    let pts := (Z.zip labels).filterMap (fun p => if p.2 = j then some p.1 else none)
    if pts = [] then cs.getD j (List.replicate 6 0)
    else vecScale ((pts.length : ℚ))⁻¹ (sumVecs pts)

/-- Fixed-fuel Lloyd iteration ending with an assignment step. -/
def lloydLoop (w : List ℚ) (Z : List (List ℚ)) (k : Nat) :
    Nat → List (List ℚ) → List Nat
  | 0, cs => assignStep w cs Z
  | Nat.succ n, cs =>
    lloydLoop w Z k n (recomputeStep k Z (assignStep w cs Z) cs)

/-- Initial centroids chosen deterministically from the random state: the
points at indices `(seed + i) % n`. -/
def initCentroids (k seed : Nat) (Z : List (List ℚ)) : List (List ℚ) :=
  (List.range k).map (fun i => Z.getD ((seed + i) % Z.length) (List.replicate 6 0))

/-- The deterministic label vector of the modelled K-Means run. -/
def lloydLabels (k seed : Nat) (w : List ℚ) (Z : List (List ℚ)) : List Nat :=
  lloydLoop w Z k 10 (initCentroids k seed Z)

/-- Model of `KMeans(n_clusters=k, random_state=seed).fit_predict` on the
scaled matrix: sklearn rejects `n_clusters < 1` and `n_samples < n_clusters`
before clustering; otherwise the run is a deterministic function of the data,
`k` and the seed, returning one label per sample. -/
def kmeansFitPredict (k seed : Nat) (w : List ℚ) (Z : List (List ℚ)) :
    Except String (List Nat) :=
  if k = 0 then Except.error "n_clusters should be an integer greater than 0"
  else if Z.length < k then Except.error "n_samples should be >= n_clusters"
  else Except.ok (lloydLabels k seed w Z)

/-- `df.loc[X.index, "segment"] = clusters`: walk the frame in order; each
row that survived `dropna` consumes the next label and gets it as its
`segment`; every other row is returned unchanged. -/
def assignLabels : List SegRow → List Nat → List SegRow
  | [], _ => []
  | r :: rs, [] => r :: assignLabels rs []
  | r :: rs, l :: ls =>
    if isComplete r then { r with segment := some l } :: assignLabels rs ls
    else r :: assignLabels rs (l :: ls)

/-- Embedding of `customer_segmentation` (segmentation.py): select the six
feature columns, drop rows with missing values, standardize, cluster with
`KMeans(n_clusters, random_state=42)`, and write the labels back to the
full frame at the surviving rows' positions. -/
def customer_segmentation (df : List SegRow) (n_clusters : Nat := 3) :
    Except String (List SegRow) :=
  let X := df.filterMap featureVec
  let Z := X.map (fun x => vecSub x (colMeans X))
  (kmeansFitPredict n_clusters 42 (scaleWeights X) Z).map
    (fun labels => assignLabels df labels)

/-- Embedding of `compute_segmentation` (precomputed_segmentation.py): like
`customer_segmentation`, but the returned frame is `df.dropna(subset=features)`
— only the complete rows — with a `segment` column added.  The cluster-quality
metrics it also computes are floating-point library calls not modelled here. -/
def compute_segmentation (df : List SegRow) (n_clusters : Nat := 3) :
    Except String (List SegRow) :=
  let df_clean := df.filter isComplete
  let X := df.filterMap featureVec
  let Z := X.map (fun x => vecSub x (colMeans X))
  (kmeansFitPredict n_clusters 42 (scaleWeights X) Z).map
    (fun labels => assignLabels df_clean labels)

/-- The number of distinct feature rows remaining after the missing-value
filter. -/
def distinctFeatureRows (df : List SegRow) : Nat :=
  (df.filterMap featureVec).dedup.length

/-! ## Concrete databases used to instantiate and refute the claims -/

/-- A customer record with all feature columns still NULL. -/
def freshCustomer (cid uid : Nat) : Customer :=
  ⟨cid, uid, none, none, none, none, none, none⟩

/-- One customer with two delivered orders; the items total 150 in price and
20 in freight. -/
def scenarioDB : DB :=
  ⟨[freshCustomer 1 1],
   [⟨1, 1, "delivered", 0, none⟩, ⟨2, 1, "delivered", 10, none⟩],
   [⟨1, 1, 1, 100, 5⟩, ⟨2, 1, 2, 50, 15⟩], [], []⟩

/-- One delivered order with two items, each of price 10 and freight 0, with
line numbers 1 and 2. -/
def dbTwoItems : DB :=
  ⟨[freshCustomer 1 1], [⟨1, 1, "delivered", 0, none⟩],
   [⟨1, 1, 1, 10, 0⟩, ⟨1, 2, 2, 10, 0⟩], [], []⟩

/-- One customer with exactly one delivered order (their only order). -/
def dbOneOrder : DB :=
  ⟨[freshCustomer 1 1], [⟨1, 1, "delivered", 0, none⟩], [], [], []⟩

/-- One customer with one delivered order holding two items of prices 10 and
20 (freight 0). -/
def dbAov : DB :=
  ⟨[freshCustomer 1 1], [⟨1, 1, "delivered", 0, none⟩],
   [⟨1, 1, 1, 10, 0⟩, ⟨1, 2, 2, 20, 0⟩], [], []⟩

/-- One customer with one delivered and one canceled order. -/
def dbReturnRate : DB :=
  ⟨[freshCustomer 1 1],
   [⟨1, 1, "delivered", 0, none⟩, ⟨2, 1, "canceled", 1, none⟩], [], [], []⟩

/-- The empty database. -/
def emptyDB : DB := ⟨[], [], [], [], []⟩

/-- A segmentation row whose six features all equal `v`. -/
def mkSegRow (uid : Nat) (v : ℚ) : SegRow :=
  ⟨uid, some v, some v, some v, some v, some v, some v, none⟩

/-! ## C1: CLV is the sum of price + freight over delivered order-items -/

/-- C1: for every customer with at least one delivered order-item join row,
`update_clv` sets that customer's `clv` to the sum of (price + freight) over
the order-items of the customer's delivered orders; the scenario witness
below instantiates this at a customer with two delivered orders totaling 150
in price and 20 in freight, giving CLV exactly 170. -/
theorem update_clv_spec (db : DB) (c : Customer) (hc : c ∈ db.customers)
    (h : deliveredItemRows db c.customer_unique_id ≠ []) :
    ∃ c' ∈ (update_clv db).customers,
      c'.customer_unique_id = c.customer_unique_id ∧
      c'.clv = some (((deliveredItemRows db c.customer_unique_id).map
        (fun t => t.2.2.price + t.2.2.freight_value)).sum) := by
  simp only [update_clv]
  refine ⟨_, List.mem_map_of_mem _ hc, ?_, ?_⟩ <;> rw [if_neg h]
  rfl

/-- C1 witness: the two-delivered-orders scenario has CLV exactly 170. -/
theorem update_clv_spec_witness :
    ∃ c' ∈ (update_clv scenarioDB).customers,
      c'.customer_unique_id = 1 ∧ c'.clv = some 170 := by
  obtain ⟨c', hm, hu, hv⟩ :=
    update_clv_spec scenarioDB (freshCustomer 1 1) (by with_unfolding_all decide) (by with_unfolding_all decide)
  exact ⟨c', hm, hu, hv.trans (by with_unfolding_all decide)⟩

/-! ## C2: total order value weights each item by its line number -/

/-- C2 counterexample: in `dbTwoItems` the unweighted sum of (price + freight)
is 20, but `update_total_order_value` stores 30, because the statement
multiplies each item's price and freight by its `order_item_id`. -/
theorem update_total_order_value_cex :
    ((update_total_order_value dbTwoItems).orders.map
        (fun o => o.total_order_value)) = [some 30] ∧
    ((itemsOfOrder dbTwoItems 1).map
        (fun oi => oi.price + oi.freight_value)).sum = 20 ∧
    (30 : ℚ) ≠ 20 :=
  ⟨by with_unfolding_all decide, by with_unfolding_all decide, by with_unfolding_all decide⟩

/-- C2 amended: for every order with at least one item,
`update_total_order_value` sets `total_order_value` to
`SUM(price * order_item_id) + SUM(freight_value * order_item_id)` over the
order's items — the per-item values weighted by the 1-based line number, not
the plain sum of (price + freight). -/
theorem update_total_order_value_spec (db : DB) (o : Order) (ho : o ∈ db.orders)
    (h : itemsOfOrder db o.order_id ≠ []) :
    ∃ o' ∈ (update_total_order_value db).orders,
      o'.order_id = o.order_id ∧
      o'.total_order_value = some
        ((((itemsOfOrder db o.order_id).map
            (fun oi => oi.price * (oi.order_item_id : ℚ))).sum)
          + (((itemsOfOrder db o.order_id).map
            (fun oi => oi.freight_value * (oi.order_item_id : ℚ))).sum)) := by
  simp only [update_total_order_value]
  refine ⟨_, List.mem_map_of_mem _ ho, ?_, ?_⟩ <;> rw [if_neg h]
  rfl

/-- C2 amended witness: the order of `dbTwoItems` gets total value 30. -/
theorem update_total_order_value_spec_witness :
    ∃ o' ∈ (update_total_order_value dbTwoItems).orders,
      o'.order_id = 1 ∧ o'.total_order_value = some 30 := by
  obtain ⟨o', hm, hi, hv⟩ :=
    update_total_order_value_spec dbTwoItems ⟨1, 1, "delivered", 0, none⟩
      (by with_unfolding_all decide) (by with_unfolding_all decide)
  exact ⟨o', hm, hi, hv.trans (by with_unfolding_all decide)⟩

/-! ## C3: the single-delivered-order sentinel -/

/-- C3 counterexample: in `dbOneOrder` the only customer has exactly one
delivered order, and `update_avg_days_between_orders` (the
update_existing_tables.py statement) sets `avg_days_between_orders` to 0,
not 9999. -/
theorem update_avg_days_single_order_cex :
    ((update_avg_days_between_orders dbOneOrder).customers.map
        (fun c => c.avg_days_between_orders)) = [some 0] ∧
    some (0 : ℚ) ≠ some (9999 : ℚ) :=
  ⟨by with_unfolding_all decide, by with_unfolding_all decide⟩

/-- C3 amended: for a customer with exactly one delivered order, the
update_existing_tables.py statement `update_avg_days_between_orders` assigns
the sentinel 0 (its `COALESCE(AVG(order_gap), 0)`); the 9999 sentinel appears
only in the feature_engineering.py variant of the UPDATE, which moreover
aggregates over orders of every status, so it assigns 9999 exactly when the
customer has one order of any status. -/
theorem update_avg_days_single_order (db : DB) (c : Customer)
    (p : Customer × Order) (hc : c ∈ db.customers)
    (h : deliveredOrderRows db c.customer_unique_id = [p]) :
    (∃ c' ∈ (update_avg_days_between_orders db).customers,
        c'.customer_unique_id = c.customer_unique_id ∧
        c'.avg_days_between_orders = some 0) ∧
    (∀ q : Customer × Order, orderRows db c.customer_unique_id = [q] →
      ∃ c' ∈ (fe_update_avg_days_between_orders db).customers,
        c'.customer_unique_id = c.customer_unique_id ∧
        c'.avg_days_between_orders = some 9999) := by
  have hne : deliveredOrderRows db c.customer_unique_id ≠ [] := by
    rw [h]; exact List.cons_ne_nil p []
  constructor
  · simp only [update_avg_days_between_orders]
    refine ⟨_, List.mem_map_of_mem _ hc, ?_, ?_⟩ <;> rw [if_neg hne]
    show some (avgDaysValue db c.customer_unique_id) = some 0
    rw [avgDaysValue, h]
    rfl
  · intro q hq
    have hne' : orderRows db c.customer_unique_id ≠ [] := by
      rw [hq]; exact List.cons_ne_nil q []
    simp only [fe_update_avg_days_between_orders]
    refine ⟨_, List.mem_map_of_mem _ hc, ?_, ?_⟩ <;> rw [if_neg hne']
    show some (feAvgDaysValue db c.customer_unique_id) = some 9999
    rw [feAvgDaysValue, hq]
    rfl

/-- C3 amended witness: the single-order customer of `dbOneOrder` gets 0 from
the update_existing_tables.py statement and 9999 from the
feature_engineering.py variant. -/
theorem update_avg_days_single_order_witness :
    (∃ c' ∈ (update_avg_days_between_orders dbOneOrder).customers,
        c'.customer_unique_id = 1 ∧ c'.avg_days_between_orders = some 0) ∧
    (∃ c' ∈ (fe_update_avg_days_between_orders dbOneOrder).customers,
        c'.customer_unique_id = 1 ∧ c'.avg_days_between_orders = some 9999) := by
  obtain ⟨h1, h2⟩ := update_avg_days_single_order dbOneOrder (freshCustomer 1 1)
    (freshCustomer 1 1, ⟨1, 1, "delivered", 0, none⟩) (by with_unfolding_all decide) (by with_unfolding_all decide)
  exact ⟨h1, h2 (freshCustomer 1 1, ⟨1, 1, "delivered", 0, none⟩) (by with_unfolding_all decide)⟩

/-! ## C4: average order value is a per-item mean, not CLV / order count -/

/-- C4 counterexample: in `dbAov` the customer's CLV is 30 over one delivered
order, so CLV / delivered-order-count is 30, but `update_avg_order_value`
stores 15 — the mean of (price + freight) over the two order-items. -/
theorem update_avg_order_value_cex :
    ((update_avg_order_value dbAov).customers.map
        (fun c => c.avg_order_value)) = [some 15] ∧
    clvValue dbAov 1 / ((deliveredOrderRows dbAov 1).length : ℚ) = 30 ∧
    (15 : ℚ) ≠ 30 :=
  ⟨by with_unfolding_all decide, by with_unfolding_all decide, by with_unfolding_all decide⟩

/-- C4 amended: for every customer with at least one delivered order-item
join row, `update_avg_order_value` sets `avg_order_value` to the mean of
(price + freight) over that customer's delivered order-items (CLV divided by
the delivered order-item count, not the delivered order count); a customer
with no delivered order-items is left unmodified rather than set to 0. -/
theorem update_avg_order_value_spec (db : DB) (c : Customer)
    (hc : c ∈ db.customers) :
    (deliveredItemRows db c.customer_unique_id = [] →
      ∃ c' ∈ (update_avg_order_value db).customers, c' = c) ∧
    (deliveredItemRows db c.customer_unique_id ≠ [] →
      ∃ c' ∈ (update_avg_order_value db).customers,
        c'.customer_unique_id = c.customer_unique_id ∧
        c'.avg_order_value = some
          ((((deliveredItemRows db c.customer_unique_id).map
              (fun t => t.2.2.price + t.2.2.freight_value)).sum)
            / (((deliveredItemRows db c.customer_unique_id).length : ℚ)))) := by
  constructor
  · intro h
    simp only [update_avg_order_value]
    exact ⟨_, List.mem_map_of_mem _ hc, by rw [if_pos h]⟩
  · intro h
    simp only [update_avg_order_value]
    refine ⟨_, List.mem_map_of_mem _ hc, ?_, ?_⟩ <;> rw [if_neg h]
    show some (aovValue db c.customer_unique_id) = _
    rw [aovValue]
    have hxs : (deliveredItemRows db c.customer_unique_id).map
        (fun t => t.2.2.price + t.2.2.freight_value) ≠ [] := by
      simpa using h
    rw [if_neg hxs, List.length_map]

/-- C4 amended witness: the customer of `dbAov` gets average order value 15
(the mean over its two delivered items). -/
theorem update_avg_order_value_spec_witness :
    ∃ c' ∈ (update_avg_order_value dbAov).customers,
      c'.customer_unique_id = 1 ∧ c'.avg_order_value = some 15 := by
  obtain ⟨c', hm, hu, hv⟩ :=
    (update_avg_order_value_spec dbAov (freshCustomer 1 1) (by with_unfolding_all decide)).2 (by with_unfolding_all decide)
  exact ⟨c', hm, hu, hv.trans (by with_unfolding_all decide)⟩

/-! ## C5: estimated return rate = 100 × cancelled / all orders -/

/-- C5: for every customer with at least one order of any status,
`update_estimated_return_rate` sets `estimated_return_rate` to 100 times the
number of that customer's canceled orders divided by the number of all of
that customer's orders, with no delivery-status filter on either count. -/
theorem update_estimated_return_rate_spec (db : DB) (c : Customer)
    (hc : c ∈ db.customers)
    (h : orderRows db c.customer_unique_id ≠ []) :
    ∃ c' ∈ (update_estimated_return_rate db).customers,
      c'.customer_unique_id = c.customer_unique_id ∧
      c'.estimated_return_rate = some
        (100 * (((orderRows db c.customer_unique_id).filter
            (fun p => p.2.order_status = "canceled")).length : ℚ)
          / (((orderRows db c.customer_unique_id).length : ℚ))) := by
  simp only [update_estimated_return_rate]
  refine ⟨_, List.mem_map_of_mem _ hc, ?_, ?_⟩ <;> rw [if_neg h]
  show some (returnRateValue db c.customer_unique_id) = _
  rw [returnRateValue, mul_comm]

/-- C5 witness: one delivered plus one canceled order gives return rate 50. -/
theorem update_estimated_return_rate_spec_witness :
    ∃ c' ∈ (update_estimated_return_rate dbReturnRate).customers,
      c'.customer_unique_id = 1 ∧ c'.estimated_return_rate = some 50 := by
  obtain ⟨c', hm, hu, hv⟩ :=
    update_estimated_return_rate_spec dbReturnRate (freshCustomer 1 1)
      (by with_unfolding_all decide) (by with_unfolding_all decide)
  exact ⟨c', hm, hu, hv.trans (by with_unfolding_all decide)⟩

/-! ## C8: per-feature commits, stop at first failure, no retry -/

/-- C8: each statement of `update_tables` is atomic on its own — as a single
SQL UPDATE it either returns the fully updated database or raises leaving the
database as last committed, which the `Except`-valued statement type models —
and when the statement named `name` fails after the prefix `pre` committed,
the run ends with exactly the prefix's effects: the database is the one the
prefix produced (each prefix statement applied exactly once), the failing
statement leaves it unchanged, and no statement after it runs regardless of
what `post` contains. -/
theorem update_tables_partial_commit
    (pre : List (String × (DB → Except String DB))) (name : String)
    (stmt : DB → Except String DB)
    (post : List (String × (DB → Except String DB)))
    (db db1 : DB) (e : String)
    (hpre : update_tables db pre = (db1, none))
    (hfail : stmt db1 = Except.error e) :
    update_tables db (pre ++ (name, stmt) :: post)
      = (db1, some (name ++ ": " ++ e)) := by
  induction pre generalizing db with
  | nil =>
    rw [update_tables] at hpre
    obtain ⟨rfl, -⟩ := Prod.mk.injEq .. ▸ hpre
    rw [List.nil_append, update_tables, hfail]
  | cons hd tl ih =>
    obtain ⟨n0, s0⟩ := hd
    rw [update_tables] at hpre
    rw [List.cons_append, update_tables]
    cases h0 : s0 db with
    | ok db' =>
      rw [h0] at hpre
      exact ih db' hpre
    | error e0 =>
      rw [h0] at hpre
      exact absurd (congrArg Prod.snd hpre) (by simp)

/-- A statement that succeeds: running the `update_clv` UPDATE. -/
def okStmt : DB → Except String DB := fun db => Except.ok (update_clv db)

/-- A statement that raises, as when the store connection drops. -/
def failStmt : DB → Except String DB := fun _ => Except.error "connection reset"

/-- C8 witness: with a committed first statement, a failing second and a
pending third, the run stops after the failure with the first statement's
effect kept. -/
theorem update_tables_partial_commit_witness :
    update_tables emptyDB
        ([("update_clv", okStmt)] ++
          ("update_product_popularity", failStmt) ::
            [("update_avg_days_between_orders", okStmt)])
      = (update_clv emptyDB,
          some ("update_product_popularity" ++ ": " ++ "connection reset")) :=
  update_tables_partial_commit [("update_clv", okStmt)]
    "update_product_popularity" failStmt
    [("update_avg_days_between_orders", okStmt)]
    emptyDB (update_clv emptyDB) "connection reset" rfl rfl

/-! ## C9: precomputed-feature snapshots are append-only -/

/-- C9: one invocation of `compute_precomputed_features` appends exactly one
new row per named feature — three rows named `customer_product_purchases`,
`top_product_popularity` and `customer_top_categories` — and every previously
stored snapshot row is unchanged, at its old position; nothing is overwritten
or deleted. -/
theorem compute_precomputed_features_append (db : DB) (now : ℤ) :
    (compute_precomputed_features db now).precomputed_features
        = db.precomputed_features ++ [cppRow db now, tppRow db now, ctcRow db now]
      ∧ ((compute_precomputed_features db now).precomputed_features.take
            db.precomputed_features.length) = db.precomputed_features
      ∧ (compute_precomputed_features db now).precomputed_features.length
          = db.precomputed_features.length + 3
      ∧ (((compute_precomputed_features db now).precomputed_features.drop
            db.precomputed_features.length).map (fun r => r.feature_name))
          = ["customer_product_purchases", "top_product_popularity",
              "customer_top_categories"] := by
  refine ⟨rfl, ?_, ?_, ?_⟩
  · rw [compute_precomputed_features]
    exact List.take_left _ _
  · rw [compute_precomputed_features]
    simp
  · rw [compute_precomputed_features]
    rw [List.drop_left]
    rfl

/-! ## Structural lemmas about the segmentation pipeline -/

/-- A row survives `dropna` iff it contributes a feature vector, so both
selections have the same length. -/
theorem length_filterMap_featureVec (df : List SegRow) :
    (df.filterMap featureVec).length = (df.filter isComplete).length := by
  induction df with
  | nil => rfl
  | cons r rs ih =>
    rw [List.filterMap_cons, List.filter_cons]
    cases hfv : featureVec r with
    | none => simpa [isComplete, hfv] using ih
    | some v => simpa [isComplete, hfv] using ih

/-- The Lloyd iteration returns one label per sample. -/
theorem lloydLoop_length (w : List ℚ) (Z : List (List ℚ)) (k : Nat) :
    ∀ (n : Nat) (cs : List (List ℚ)), (lloydLoop w Z k n cs).length = Z.length
  | 0, cs => by rw [lloydLoop]; exact List.length_map _ _
  | Nat.succ n, cs => by rw [lloydLoop]; exact lloydLoop_length w Z k n _

/-- A successful modelled K-Means run returns one label per sample. -/
theorem kmeansFitPredict_ok_length (k seed : Nat) (w : List ℚ)
    (Z : List (List ℚ)) (labels : List Nat)
    (h : kmeansFitPredict k seed w Z = Except.ok labels) :
    labels.length = Z.length := by
  rw [kmeansFitPredict] at h
  split at h
  · exact absurd h (by simp)
  · split at h
    · exact absurd h (by simp)
    · cases Except.ok.inj h
      rw [lloydLabels]
      exact lloydLoop_length w Z k 10 _

/-- The fields of a segmentation row other than `segment` are equal. -/
def rowFrameEq (a b : SegRow) : Prop :=
  a.customer_unique_id = b.customer_unique_id ∧ a.clv = b.clv ∧
  a.total_orders = b.total_orders ∧ a.avg_order_value = b.avg_order_value ∧
  a.avg_days_between_orders = b.avg_days_between_orders ∧
  a.avg_shipping_cost = b.avg_shipping_cost ∧
  a.estimated_return_rate = b.estimated_return_rate

/-- Writing labels back touches only the `segment` column, only at complete
rows, and gives every complete row a label when enough labels are supplied. -/
theorem assignLabels_spec (df : List SegRow) (ls : List Nat)
    (h : (df.filter isComplete).length ≤ ls.length) :
    List.Forall₂ (fun r r' =>
      rowFrameEq r r' ∧ (isComplete r = false → r' = r) ∧
      (isComplete r = true → ∃ l, r'.segment = some l)) df (assignLabels df ls) := by
  induction df generalizing ls with
  | nil => exact List.Forall₂.nil
  | cons r rs ih =>
    rw [List.filter_cons] at h
    cases hc : isComplete r with
    | false =>
      rw [hc] at h
      simp only [Bool.false_eq_true, if_false] at h
      cases ls with
      | nil =>
        rw [assignLabels]
        exact List.Forall₂.cons
          ⟨⟨rfl, rfl, rfl, rfl, rfl, rfl, rfl⟩, fun _ => rfl,
            fun htrue => absurd (hc.symm.trans htrue) (by simp)⟩ (ih [] h)
      | cons l ls' =>
        rw [assignLabels, if_neg (by simp [hc])]
        exact List.Forall₂.cons
          ⟨⟨rfl, rfl, rfl, rfl, rfl, rfl, rfl⟩, fun _ => rfl,
            fun htrue => absurd (hc.symm.trans htrue) (by simp)⟩ (ih (l :: ls') h)
    | true =>
      rw [hc] at h
      simp only [if_true, List.length_cons] at h
      cases ls with
      | nil => exact absurd h (by simp)
      | cons l ls' =>
        rw [assignLabels, if_pos hc]
        exact List.Forall₂.cons
          ⟨⟨rfl, rfl, rfl, rfl, rfl, rfl, rfl⟩,
            fun hfalse => absurd (hc.symm.trans hfalse) (by simp),
            fun _ => ⟨l, rfl⟩⟩
          (ih ls' (Nat.le_of_succ_le_succ h))

/-- On a frame of complete rows with enough labels, every returned row is its
input row with some segment label attached. -/
theorem assignLabels_complete_spec (rows : List SegRow) (ls : List Nat)
    (hall : ∀ r ∈ rows, isComplete r = true)
    (h : rows.length ≤ ls.length) :
    List.Forall₂ (fun r r' => rowFrameEq r r' ∧ ∃ l, r'.segment = some l)
      rows (assignLabels rows ls) := by
  induction rows generalizing ls with
  | nil => exact List.Forall₂.nil
  | cons r rs ih =>
    cases ls with
    | nil => exact absurd h (by simp)
    | cons l ls' =>
      rw [assignLabels, if_pos (hall r (List.mem_cons_self r rs))]
      exact List.Forall₂.cons ⟨⟨rfl, rfl, rfl, rfl, rfl, rfl, rfl⟩, l, rfl⟩
        (ih ls' (fun x hx => hall x (List.mem_cons_of_mem r hx))
          (Nat.le_of_succ_le_succ h))

/-! ## C6: no configuration check against the number of distinct rows -/

/-- Three rows, two of them with identical feature vectors: two distinct
feature rows. -/
def exDF6 : List SegRow := [mkSegRow 1 1, mkSegRow 2 1, mkSegRow 3 5]

/-- The frame `customer_segmentation exDF6 3` returns: the duplicate points
share label 0 and the third point gets label 2, so only two of the three
requested clusters are non-empty. -/
def exOut6 : List SegRow :=
  [⟨1, some 1, some 1, some 1, some 1, some 1, some 1, some 0⟩,
   ⟨2, some 1, some 1, some 1, some 1, some 1, some 1, some 0⟩,
   ⟨3, some 5, some 5, some 5, some 5, some 5, some 5, some 2⟩]

/-- C6 counterexample: on `exDF6` with k = 3 ≥ 2 = number of distinct feature
rows after the missing-value filter, the segmentation operation does not
reject with a configuration error: it returns a labeling, and that labeling
has only 2 non-empty clusters. -/
theorem customer_segmentation_no_distinct_check_cex :
    distinctFeatureRows exDF6 = 2 ∧
    customer_segmentation exDF6 3 = Except.ok exOut6 ∧
    ((exOut6.filterMap (fun r => r.segment)).dedup.length = 2) :=
  ⟨by with_unfolding_all decide, by with_unfolding_all rfl,
    by with_unfolding_all decide⟩

/-- C6 amended: the scripts perform no check of k against the number of
distinct feature rows; for k ≥ 1 both segmentation entry points reject (with
the library's `n_samples < n_clusters` error) exactly when k exceeds the
number of rows remaining after the missing-value filter, duplicates counted —
otherwise they return a labeling, which may have fewer than k non-empty
clusters (see the counterexample). -/
theorem segmentation_rejects_iff (df : List SegRow) (k : Nat) (hk : 1 ≤ k) :
    ((∃ e, customer_segmentation df k = Except.error e)
        ↔ (df.filterMap featureVec).length < k)
      ∧ ((∃ e, compute_segmentation df k = Except.error e)
        ↔ (df.filterMap featureVec).length < k) := by
  have hk0 : k ≠ 0 := by omega
  constructor <;>
    simp only [customer_segmentation, compute_segmentation, kmeansFitPredict,
      List.length_map, if_neg hk0] <;>
    split <;>
    rename_i h <;>
    simp [Except.map, h]

/-- C6 amended witness: with k = 1 and an empty frame (0 rows after the
filter), both entry points reject. -/
theorem segmentation_rejects_iff_witness :
    (1 ≤ 1) ∧
    ((∃ e, customer_segmentation [] 1 = Except.error e) ↔ 0 < 1) ∧
    ((∃ e, compute_segmentation [] 1 = Except.error e) ↔ 0 < 1) :=
  ⟨Nat.le_refl 1, (segmentation_rejects_iff [] 1 (Nat.le_refl 1)).1,
    (segmentation_rejects_iff [] 1 (Nat.le_refl 1)).2⟩

/-! ## C7: same seed, same k, same input ⇒ same partition -/

/-- Rows `i` and `j` of a returned frame share a cluster: both exist and
carry the same (assigned) segment label. -/
def shareSegment (out : List SegRow) (i j : Nat) : Prop :=
  ∃ a b, out[i]? = some a ∧ out[j]? = some b ∧
    a.segment ≠ none ∧ a.segment = b.segment

/-- C7: the seed is fixed at 42 inside `customer_segmentation`, so two runs
on the same frame with the same k that both succeed induce the same
partition: rows i and j share a cluster in the first run's output iff they
share a cluster in the second run's output. -/
theorem customer_segmentation_deterministic_partition
    (df : List SegRow) (k : Nat) (out1 out2 : List SegRow)
    (h1 : customer_segmentation df k = Except.ok out1)
    (h2 : customer_segmentation df k = Except.ok out2)
    (i j : Nat) :
    shareSegment out1 i j ↔ shareSegment out2 i j := by
  have heq : out1 = out2 := Except.ok.inj (h1.symm.trans h2)
  rw [heq]

/-- Two distinct complete rows. -/
def exDF7 : List SegRow := [mkSegRow 1 0, mkSegRow 2 4]

/-- The frame `customer_segmentation exDF7 2` returns. -/
def exOut7 : List SegRow :=
  [⟨1, some 0, some 0, some 0, some 0, some 0, some 0, some 0⟩,
   ⟨2, some 4, some 4, some 4, some 4, some 4, some 4, some 1⟩]

/-- C7 witness: two runs on `exDF7` with k = 2 both succeed with the same
output, hence the same induced partition. -/
theorem customer_segmentation_deterministic_partition_witness :
    (customer_segmentation exDF7 2 = Except.ok exOut7) ∧
    (shareSegment exOut7 0 1 ↔ shareSegment exOut7 0 1) :=
  ⟨by with_unfolding_all rfl,
    customer_segmentation_deterministic_partition exDF7 2 exOut7 exOut7
      (by with_unfolding_all rfl) (by with_unfolding_all rfl) 0 1⟩

/-! ## C10: which rows get labels, and what else changes -/

/-- Two distinct complete rows and one row with a missing `clv`. -/
def exDF10 : List SegRow :=
  [mkSegRow 1 0, mkSegRow 2 4,
   ⟨3, none, some 1, some 1, some 1, some 1, some 1, none⟩]

/-- The frame `customer_segmentation exDF10 2` returns. -/
def exOut10a : List SegRow :=
  [⟨1, some 0, some 0, some 0, some 0, some 0, some 0, some 0⟩,
   ⟨2, some 4, some 4, some 4, some 4, some 4, some 4, some 1⟩,
   ⟨3, none, some 1, some 1, some 1, some 1, some 1, none⟩]

/-- The frame `compute_segmentation exDF10 2` returns. -/
def exOut10c : List SegRow :=
  [⟨1, some 0, some 0, some 0, some 0, some 0, some 0, some 0⟩,
   ⟨2, some 4, some 4, some 4, some 4, some 4, some 4, some 1⟩]

/-- C10 counterexample: `compute_segmentation` does not return rows with a
missing feature value at all — the input has rows 1, 2, 3 of which row 3 is
incomplete, and the returned frame holds only rows 1 and 2 — so the claim
that such rows "are returned with no segment label assigned" fails for it. -/
theorem compute_segmentation_drops_rows_cex :
    compute_segmentation exDF10 2 = Except.ok exOut10c ∧
    exDF10.map (fun r => r.customer_unique_id) = [1, 2, 3] ∧
    exOut10c.map (fun r => r.customer_unique_id) = [1, 2] :=
  ⟨by with_unfolding_all rfl, by with_unfolding_all decide,
    by with_unfolding_all decide⟩

/-- C10 amended: `customer_segmentation` returns one output row per input
row, in order: a row with all six feature values present keeps every column
except `segment` and gets a segment label; a row with any missing feature
value is returned entirely unchanged (in particular with no segment label
assigned when it had none).  `compute_segmentation`, by contrast, returns
only the complete rows — each with every non-`segment` column preserved and
a segment label assigned — and drops incomplete rows from its output. -/
theorem segmentation_frame_spec (df : List SegRow) (k : Nat)
    (out outc : List SegRow)
    (h : customer_segmentation df k = Except.ok out)
    (hc : compute_segmentation df k = Except.ok outc) :
    List.Forall₂ (fun r r' =>
        rowFrameEq r r' ∧ (isComplete r = false → r' = r) ∧
        (isComplete r = true → ∃ l, r'.segment = some l)) df out ∧
    List.Forall₂ (fun r r' => rowFrameEq r r' ∧ ∃ l, r'.segment = some l)
      (df.filter isComplete) outc := by
  simp only [customer_segmentation] at h
  simp only [compute_segmentation] at hc
  cases hkm : kmeansFitPredict k 42 (scaleWeights (df.filterMap featureVec))
      ((df.filterMap featureVec).map
        (fun x => vecSub x (colMeans (df.filterMap featureVec)))) with
  | error e =>
    rw [hkm] at h
    exact absurd h (by simp [Except.map])
  | ok labels =>
    rw [hkm] at h hc
    simp only [Except.map] at h hc
    have hout := Except.ok.inj h
    have houtc := Except.ok.inj hc
    have hlen : (df.filter isComplete).length ≤ labels.length := by
      have h1 := kmeansFitPredict_ok_length _ _ _ _ _ hkm
      rw [List.length_map, length_filterMap_featureVec] at h1
      omega
    constructor
    · rw [← hout]
      exact assignLabels_spec df labels hlen
    · rw [← houtc]
      exact assignLabels_complete_spec (df.filter isComplete) labels
        (fun r hr => (List.mem_filter.mp hr).2) hlen

/-- C10 amended witness: instantiating the frame specification at `exDF10`
with k = 2. -/
theorem segmentation_frame_spec_witness :
    List.Forall₂ (fun r r' =>
        rowFrameEq r r' ∧ (isComplete r = false → r' = r) ∧
        (isComplete r = true → ∃ l, r'.segment = some l)) exDF10 exOut10a ∧
    List.Forall₂ (fun r r' => rowFrameEq r r' ∧ ∃ l, r'.segment = some l)
      (exDF10.filter isComplete) exOut10c :=
  segmentation_frame_spec exDF10 2 exOut10a exOut10c
    (by with_unfolding_all rfl) (by with_unfolding_all rfl)

end Ecommerce
